import Mathlib

/-!
Verification of `frontend/src/toolbar/stats/HeatmapStats.tsx`.

The component reads `{countedElements, clickCount, heatmapEnabled, heatmapLoading}`
from the heatmap state container and the dispatchers
`{setHighlightElement, setSelectedElement}` from the elements state container, and
returns a render tree.  We embed the render output shallowly: the component is a
pure function from a state snapshot to a list of children, and every pointer
handler is embedded as the list of actions it dispatches.
-/

/-- Opaque DOM-element reference held by a counted element; the component never
inspects it, only forwards it to the dispatchers.  Modelled as a tagged id. -/
structure DomElement where
  id : Nat
  deriving DecidableEq

/-- Matched action-step metadata: `{ text?: string, tag_name?: string }`.
JavaScript `undefined` fields are `none`. -/
structure ActionStep where
  text : Option String
  tag_name : Option String
  deriving DecidableEq

/-- One entry of `countedElements`: `{ element, count, actionStep }`. -/
structure CountedElement where
  element : DomElement
  count : Nat
  actionStep : Option ActionStep
  deriving DecidableEq

/-- Snapshot of the values the component reads from `heatmapLogic`. -/
structure HeatmapState where
  countedElements : List CountedElement
  clickCount : Nat
  heatmapEnabled : Bool
  heatmapLoading : Bool
  deriving DecidableEq

/-- Actions the component can dispatch into `elementsLogic`. -/
inductive ToolbarAction where
  | setSelectedElement (e : DomElement)
  | setHighlightElement (e : Option DomElement)
  deriving DecidableEq

/-- Resolver passed as `getPopupContainer`; in the source it is the external
`getShadowRootPopupContainer` from `~/toolbar/utils`. -/
inductive PopupResolver where
  | shadowRoot
  deriving DecidableEq

/-- Configuration handed to the `DateFilter` sub-widget. -/
structure DateFilterProps where
  defaultValue : String
  updatePath : Bool
  getPopupContainer : PopupResolver
  deriving DecidableEq

/-- Resolved content of one list row: either the action-step text, a code-styled
`<tag>`, or the emphasised literal fallback `Element`. -/
inductive RowContent where
  | text (s : String)
  | codeTag (tag : String)
  | elementFallback
  deriving DecidableEq

/-- One rendered `List.Item`: rank label with its pixel width, resolved row
content, the trailing `{count} clicks` text, and the three pointer handlers
embedded as the action lists they dispatch. -/
structure RenderedRow where
  labelWidthPx : Nat
  rankLabel : Nat
  content : RowContent
  trailing : String
  onClick : List ToolbarAction
  onMouseEnter : List ToolbarAction
  onMouseLeave : List ToolbarAction
  deriving DecidableEq

/-- Children of the component's outer `<div>`. -/
inductive Child where
  | filterWidget (props : DateFilterProps)
  | summaryLine (s : String)
  | elementsList (rows : List RenderedRow)
  deriving DecidableEq

/-- JavaScript truthiness of an optional string: `undefined` and the empty
string are falsy, every other string is truthy.  This is the semantics the
source relies on in `actionStep?.text || (actionStep?.tag_name ? ... : ...)`. -/
def jsTruthyStr : Option String → Bool
  | none => false
  | some s => !(s == "")

/-- Row content exactly as the source computes it:
`actionStep?.text || (actionStep?.tag_name ? <code>&lt;tag&gt;</code> : <em>Element</em>)`. -/
def rowContent (actionStep : Option ActionStep) : RowContent :=
  let t := actionStep.bind ActionStep.text
  let g := actionStep.bind ActionStep.tag_name
  if jsTruthyStr t then RowContent.text (t.getD "")
  else if jsTruthyStr g then RowContent.codeTag (g.getD "")
  else RowContent.elementFallback

/-- Fuel-driven base-10 integer logarithm; with `fuel ≥ n` it agrees with
`Nat.log 10 n` (see `log10fuel_eq_natLog`).  Structural recursion on the fuel
keeps it kernel-computable. -/
def log10fuel : Nat → Nat → Nat
  | 0, _ => 0
  | fuel + 1, n => if n < 10 then 0 else log10fuel fuel (n / 10) + 1

/-- Embedding of `Math.floor(Math.log10(n) + 1)` for a natural `n`: the decimal
digit count of `n`, equal to `⌊Real.logb 10 n + 1⌋` for every natural `n` (see
`floorLog10Succ_eq_real_floor` below). -/
def floorLog10Succ (n : Nat) : Nat :=
  log10fuel n n + 1

/-- Summary line `Found: {N} elements / {M} clicks!`. -/
def summaryText (n m : Nat) : String :=
  "Found: " ++ toString n ++ " elements / " ++ toString m ++ " clicks!"

/-- One rendered row: `n` is `countedElements.length` captured by the closure,
`idx` the 0-based index supplied by `renderItem`. -/
def renderRow (n idx : Nat) (ce : CountedElement) : RenderedRow :=
  { labelWidthPx := floorLog10Succ n * 12 + 6
    rankLabel := idx + 1
    content := rowContent ce.actionStep
    trailing := toString ce.count ++ " clicks"
    onClick := [ToolbarAction.setSelectedElement ce.element]
    onMouseEnter := [ToolbarAction.setHighlightElement (some ce.element)]
    onMouseLeave := [ToolbarAction.setHighlightElement none] }

/-- The antd `List` calls `renderItem` once per entry of `dataSource`, in order,
with the running index; embedded as an index-threading map. -/
def renderRowsAux (n : Nat) : Nat → List CountedElement → List RenderedRow
  | _, [] => []
  | i, ce :: rest => renderRow n i ce :: renderRowsAux n (i + 1) rest

/-- Props of the `DateFilter` element in the source. -/
def dateFilterProps : DateFilterProps :=
  { defaultValue := "Last 7 days"
    updatePath := false
    getPopupContainer := PopupResolver.shadowRoot }

/-- The component itself: children of the outer `<div>` as a function of the
state snapshot.  The conditional mirrors
`heatmapEnabled && !heatmapLoading ? (...) : null`. -/
def HeatmapStats (s : HeatmapState) : List Child :=
  if s.heatmapEnabled && !s.heatmapLoading then
    [Child.filterWidget dateFilterProps,
     Child.summaryLine (summaryText s.countedElements.length s.clickCount),
     Child.elementsList (renderRowsAux s.countedElements.length 0 s.countedElements)]
  else []

/-- All list rows occurring in a rendered child list. -/
def viewRows : List Child → List RenderedRow
  | [] => []
  | Child.elementsList rows :: rest => rows ++ viewRows rest
  | _ :: rest => viewRows rest

/-- Kinds of pointer events a row reacts to. -/
inductive PointerKind where
  | click
  | mouseEnter
  | mouseLeave
  deriving DecidableEq

/-- Actions a row's handler dispatches for one pointer event. -/
def rowDispatch (row : RenderedRow) : PointerKind → List ToolbarAction
  | PointerKind.click => row.onClick
  | PointerKind.mouseEnter => row.onMouseEnter
  | PointerKind.mouseLeave => row.onMouseLeave

/-- A pointer event delivered to the row at a given index of the rendered list. -/
structure PointerEventRec where
  rowIdx : Nat
  kind : PointerKind
  deriving DecidableEq

/-- Actions the component dispatches when a pointer event hits the rendered
view for state `s`; events off the list dispatch nothing. -/
def dispatchFor (s : HeatmapState) (ev : PointerEventRec) : List ToolbarAction :=
  match (viewRows (HeatmapStats s))[ev.rowIdx]? with
  | some row => rowDispatch row ev.kind
  | none => []

/-- Processing a sequence of pointer events: the component owns no state, so the
snapshot is passed through while the handlers' dispatches accumulate. -/
def processEvents (s : HeatmapState) (evs : List PointerEventRec) :
    HeatmapState × List ToolbarAction :=
  evs.foldl (fun acc ev => (acc.1, acc.2 ++ dispatchFor acc.1 ev)) (s, [])

/-! ### Supporting lemmas -/

lemma renderRowsAux_length (n i : Nat) (l : List CountedElement) :
    (renderRowsAux n i l).length = l.length := by
  induction l generalizing i with
  | nil => rfl
  | cons ce rest ih => simp [renderRowsAux, ih]

lemma renderRowsAux_getElem? (n i : Nat) (l : List CountedElement) (j : Nat) :
    (renderRowsAux n i l)[j]? = l[j]?.map (renderRow n (i + j)) := by
  induction l generalizing i j with
  | nil => simp [renderRowsAux]
  | cons ce rest ih =>
    cases j with
    | zero => simp [renderRowsAux]
    | succ j' =>
      have h := ih (i + 1) j'
      simp only [renderRowsAux, List.getElem?_cons_succ]
      rw [h, show i + 1 + j' = i + (j' + 1) from by omega]

lemma mem_renderRowsAux {n i : Nat} {l : List CountedElement} {row : RenderedRow}
    (h : row ∈ renderRowsAux n i l) :
    ∃ j ce, l[j]? = some ce ∧ row = renderRow n (i + j) ce := by
  induction l generalizing i with
  | nil => simp [renderRowsAux] at h
  | cons ce rest ih =>
    simp only [renderRowsAux, List.mem_cons] at h
    rcases h with h | h
    · exact ⟨0, ce, by simp, by simpa using h⟩
    · obtain ⟨j, ce', hj, hrow⟩ := ih h
      exact ⟨j + 1, ce', by simpa using hj, by rw [hrow]; congr 1; omega⟩

lemma viewRows_visible (s : HeatmapState) (he : s.heatmapEnabled = true)
    (hl : s.heatmapLoading = false) :
    viewRows (HeatmapStats s) =
      renderRowsAux s.countedElements.length 0 s.countedElements := by
  simp [HeatmapStats, he, hl, viewRows]

lemma log10fuel_eq_natLog : ∀ fuel n, n ≤ fuel → log10fuel fuel n = Nat.log 10 n := by
  intro fuel
  induction fuel with
  | zero =>
    intro n hn
    have hz : n = 0 := by omega
    subst hz
    simp [log10fuel, Nat.log_zero_right]
  | succ fuel ih =>
    intro n hn
    by_cases h : n < 10
    · simp [log10fuel, h, Nat.log_of_lt h]
    · push_neg at h
      have hd : n / 10 ≤ fuel := by
        have : n / 10 < n := Nat.div_lt_self (by omega) (by omega)
        omega
      simp only [log10fuel, if_neg (show ¬n < 10 from by omega)]
      rw [ih (n / 10) hd, Nat.log_of_one_lt_of_le (by omega) h]

lemma floorLog10Succ_eq (n : Nat) : floorLog10Succ n = Nat.log 10 n + 1 := by
  unfold floorLog10Succ
  rw [log10fuel_eq_natLog n n le_rfl]

lemma floorLog10Succ_eq_real_floor (n : Nat) :
    (Int.floor (Real.logb 10 (n : Real) + 1)).toNat = floorLog10Succ n := by
  rw [Int.floor_add_one, show ((10 : Real)) = ((10 : Nat) : Real) from by norm_num,
    Real.floor_logb_natCast (Nat.cast_nonneg n), Int.log_natCast, floorLog10Succ_eq]
  omega

/-! ### Claims -/

/-- C1: whenever `heatmapEnabled` is false or `heatmapLoading` is true, the
component renders an empty container — no filter, no summary line, no list. -/
theorem C1_hidden_renders_empty (s : HeatmapState)
    (h : s.heatmapEnabled = false ∨ s.heatmapLoading = true) :
    HeatmapStats s = [] := by
  rcases h with h | h <;> simp [HeatmapStats, h]

/-- Witness for C1 at a concrete hidden state. -/
theorem C1_witness :
    HeatmapStats { countedElements := [], clickCount := 0,
                   heatmapEnabled := false, heatmapLoading := false } = [] :=
  C1_hidden_renders_empty
    { countedElements := [], clickCount := 0,
      heatmapEnabled := false, heatmapLoading := false } (Or.inl rfl)

/-- C2: in every visible state the summary line (the second rendered child)
reads exactly `Found: N elements / M clicks!` where `N` is the length of
`countedElements` and `M` is `clickCount`. -/
theorem C2_summary_line (s : HeatmapState) (he : s.heatmapEnabled = true)
    (hl : s.heatmapLoading = false) :
    (HeatmapStats s)[1]? =
      some (Child.summaryLine
        ("Found: " ++ toString s.countedElements.length ++ " elements / " ++
          toString s.clickCount ++ " clicks!")) := by
  simp [HeatmapStats, he, hl, summaryText]

/-- Witness for C2 at a concrete visible state with one element and five clicks. -/
theorem C2_witness :
    (HeatmapStats { countedElements := [⟨⟨1⟩, 2, none⟩], clickCount := 5,
                    heatmapEnabled := true, heatmapLoading := false })[1]? =
      some (Child.summaryLine "Found: 1 elements / 5 clicks!") := by
  have h := C2_summary_line
    { countedElements := [⟨⟨1⟩, 2, none⟩], clickCount := 5,
      heatmapEnabled := true, heatmapLoading := false } rfl rfl
  exact h

/-- C8: in every visible state the first rendered child is the date-range
filter, configured with default label `Last 7 days`, URL-path updating disabled
and the shadow-root popup-container resolver. -/
theorem C8_filter_first (s : HeatmapState) (he : s.heatmapEnabled = true)
    (hl : s.heatmapLoading = false) :
    (HeatmapStats s)[0]? =
      some (Child.filterWidget
        { defaultValue := "Last 7 days", updatePath := false,
          getPopupContainer := PopupResolver.shadowRoot }) := by
  simp [HeatmapStats, he, hl, dateFilterProps]

/-- Witness for C8 at a concrete visible state. -/
theorem C8_witness :
    (HeatmapStats { countedElements := [], clickCount := 0,
                    heatmapEnabled := true, heatmapLoading := false })[0]? =
      some (Child.filterWidget
        { defaultValue := "Last 7 days", updatePath := false,
          getPopupContainer := PopupResolver.shadowRoot }) :=
  C8_filter_first
    { countedElements := [], clickCount := 0,
      heatmapEnabled := true, heatmapLoading := false } rfl rfl

/-- Tag-name fallback following the amended specification's words: the tag name
as code-styled content when present and non-empty, else the `Element` literal. -/
def specTagContent : Option String → RowContent
  | none => RowContent.elementFallback
  | some g => if g = "" then RowContent.elementFallback else RowContent.codeTag g

/-- Row content as the amended specification reads: the action-step text when
present and non-empty; otherwise the tag-name fallback.  Written from the
amended words, independently of `rowContent`, to be compared with it. -/
def specRowContent : Option ActionStep → RowContent
  | none => RowContent.elementFallback
  | some step =>
    match step.text with
    | some t => if t = "" then specTagContent step.tag_name else RowContent.text t
    | none => specTagContent step.tag_name

/-- C3 counterexample: for an action step whose `text` is present but is the
empty string (and whose `tag_name` is `"button"`), the claim predicts the row
renders the text `""`; the source's `actionStep?.text || ...` treats the empty
string as falsy and renders the code-styled `<button>` instead. -/
theorem C3_counterexample :
    rowContent (some { text := some "", tag_name := some "button" }) =
      RowContent.codeTag "button" ∧
    rowContent (some { text := some "", tag_name := some "button" }) ≠
      RowContent.text "" := by
  decide

/-- C3 (amended): the row content is the action-step text whenever it is present
and non-empty; otherwise, if the tag name is present and non-empty, the
code-styled `<tagname>`; otherwise the literal fallback `Element`.  A present
but empty string is treated as absent, by JavaScript truthiness of `||`/`?:`. -/
theorem C3_row_content_amended (astep : Option ActionStep) :
    rowContent astep = specRowContent astep := by
  rcases astep with _ | ⟨t, g⟩
  · rfl
  · rcases t with _ | t
    · rcases g with _ | g
      · rfl
      · by_cases hg : g = "" <;>
          simp [rowContent, specRowContent, specTagContent, jsTruthyStr, hg]
    · by_cases ht : t = ""
      · rcases g with _ | g
        · simp [rowContent, specRowContent, specTagContent, jsTruthyStr, ht]
        · by_cases hg : g = "" <;>
            simp [rowContent, specRowContent, specTagContent, jsTruthyStr, ht, hg]
      · simp [rowContent, specRowContent, specTagContent, jsTruthyStr, ht]

lemma bool_visible_iff (s : HeatmapState) :
    (s.heatmapEnabled && !s.heatmapLoading) = true ↔
      s.heatmapEnabled = true ∧ s.heatmapLoading = false := by
  cases hb : s.heatmapEnabled <;> cases hc : s.heatmapLoading <;> simp

lemma viewRows_hidden (s : HeatmapState)
    (hv : ¬(s.heatmapEnabled && !s.heatmapLoading) = true) :
    viewRows (HeatmapStats s) = [] := by
  simp [HeatmapStats, hv, viewRows]

lemma getElem?_viewRows {s : HeatmapState} {i : Nat} {row : RenderedRow}
    (hrow : (viewRows (HeatmapStats s))[i]? = some row) :
    ∃ ce, s.countedElements[i]? = some ce ∧
      row = renderRow s.countedElements.length i ce := by
  by_cases hv : (s.heatmapEnabled && !s.heatmapLoading) = true
  · obtain ⟨he, hl⟩ := (bool_visible_iff s).mp hv
    rw [viewRows_visible s he hl, renderRowsAux_getElem?] at hrow
    rcases hce : s.countedElements[i]? with _ | ce
    · rw [hce] at hrow; simp at hrow
    · rw [hce] at hrow
      simp only [Option.map_some'] at hrow
      exact ⟨ce, rfl, by simpa [Nat.zero_add] using (Option.some.inj hrow).symm⟩
  · rw [viewRows_hidden s hv] at hrow
    simp at hrow

lemma mem_viewRows_eq {s : HeatmapState} {row : RenderedRow}
    (hmem : row ∈ viewRows (HeatmapStats s)) :
    ∃ ce ∈ s.countedElements, ∃ j,
      row = renderRow s.countedElements.length j ce := by
  obtain ⟨j, hj⟩ := List.mem_iff_getElem?.mp hmem
  obtain ⟨ce, hce, hrow⟩ := getElem?_viewRows hj
  exact ⟨ce, List.mem_iff_getElem?.mpr ⟨j, hce⟩, j, hrow⟩

lemma labelWidthPx_of_mem {s : HeatmapState} {row : RenderedRow}
    (hmem : row ∈ viewRows (HeatmapStats s)) :
    row.labelWidthPx = floorLog10Succ s.countedElements.length * 12 + 6 := by
  obtain ⟨ce, _, j, rfl⟩ := mem_viewRows_eq hmem
  rfl

/-- C5: in every visible state the component renders exactly one row per entry
of `countedElements`, in the given order: the list of rows has the same length,
and the row at 0-based index `i` carries the 1-based rank label `i + 1` and is
built from the entry at index `i` — its content, its trailing `{count} clicks`
text and its click dispatch all come from that entry. -/
theorem C5_rows_in_order (s : HeatmapState) (he : s.heatmapEnabled = true)
    (hl : s.heatmapLoading = false) :
    (viewRows (HeatmapStats s)).length = s.countedElements.length ∧
    ∀ i row, (viewRows (HeatmapStats s))[i]? = some row →
      row.rankLabel = i + 1 ∧
      ∃ ce, s.countedElements[i]? = some ce ∧
        row.content = rowContent ce.actionStep ∧
        row.trailing = toString ce.count ++ " clicks" ∧
        row.onClick = [ToolbarAction.setSelectedElement ce.element] := by
  constructor
  · rw [viewRows_visible s he hl]
    exact renderRowsAux_length _ _ _
  · intro i row hrow
    obtain ⟨ce, hce, rfl⟩ := getElem?_viewRows hrow
    exact ⟨rfl, ce, hce, rfl, rfl, rfl⟩

/-- Witness for C5 at a concrete visible two-element state. -/
theorem C5_witness :
    (viewRows (HeatmapStats ⟨[⟨⟨7⟩, 3, none⟩, ⟨⟨8⟩, 4, none⟩], 9, true, false⟩)).length =
      ([⟨⟨7⟩, 3, none⟩, ⟨⟨8⟩, 4, none⟩] : List CountedElement).length ∧
    ∀ i row,
      (viewRows (HeatmapStats
        ⟨[⟨⟨7⟩, 3, none⟩, ⟨⟨8⟩, 4, none⟩], 9, true, false⟩))[i]? = some row →
      row.rankLabel = i + 1 ∧
      ∃ ce, ([⟨⟨7⟩, 3, none⟩, ⟨⟨8⟩, 4, none⟩] : List CountedElement)[i]? = some ce ∧
        row.content = rowContent ce.actionStep ∧
        row.trailing = toString ce.count ++ " clicks" ∧
        row.onClick = [ToolbarAction.setSelectedElement ce.element] :=
  C5_rows_in_order ⟨[⟨⟨7⟩, 3, none⟩, ⟨⟨8⟩, 4, none⟩], 9, true, false⟩ rfl rfl

/-- C4: every rendered row's rank-label column width is
`⌊log₁₀ N + 1⌋ * 12 + 6` pixels, where `N` is the length of `countedElements`,
and every row of the list carries this same width. -/
theorem C4_label_width (s : HeatmapState) (row : RenderedRow)
    (hmem : row ∈ viewRows (HeatmapStats s)) :
    row.labelWidthPx =
      (Int.floor (Real.logb 10 (s.countedElements.length : Real) + 1)).toNat
        * 12 + 6 ∧
    ∀ row' ∈ viewRows (HeatmapStats s), row'.labelWidthPx = row.labelWidthPx := by
  have h1 := labelWidthPx_of_mem hmem
  refine ⟨by rw [h1, floorLog10Succ_eq_real_floor], ?_⟩
  intro row' hmem'
  rw [labelWidthPx_of_mem hmem', h1]

/-- Witness for C4 at a concrete visible one-element state. -/
theorem C4_witness :
    (renderRow 1 0 ⟨⟨7⟩, 3, none⟩).labelWidthPx =
      (Int.floor (Real.logb 10 ((1 : Nat) : Real) + 1)).toNat * 12 + 6 ∧
    ∀ row' ∈ viewRows (HeatmapStats ⟨[⟨⟨7⟩, 3, none⟩], 3, true, false⟩),
      row'.labelWidthPx = (renderRow 1 0 ⟨⟨7⟩, 3, none⟩).labelWidthPx :=
  C4_label_width ⟨[⟨⟨7⟩, 3, none⟩], 3, true, false⟩ (renderRow 1 0 ⟨⟨7⟩, 3, none⟩)
    (by decide)

/-- C6: for the rendered row built from the entry `ce` at index `i`: clicking
dispatches `setSelectedElement ce.element` exactly once, mouse-enter dispatches
`setHighlightElement (some ce.element)`, mouse-leave dispatches
`setHighlightElement none`, and no pointer event on the row dispatches any
other action. -/
theorem C6_row_interactions (s : HeatmapState) (i : Nat) (row : RenderedRow)
    (ce : CountedElement)
    (hrow : (viewRows (HeatmapStats s))[i]? = some row)
    (hce : s.countedElements[i]? = some ce) :
    row.onClick = [ToolbarAction.setSelectedElement ce.element] ∧
    row.onMouseEnter = [ToolbarAction.setHighlightElement (some ce.element)] ∧
    row.onMouseLeave = [ToolbarAction.setHighlightElement none] ∧
    ∀ k : PointerKind, ∀ a ∈ rowDispatch row k,
      a = ToolbarAction.setSelectedElement ce.element ∨
      a = ToolbarAction.setHighlightElement (some ce.element) ∨
      a = ToolbarAction.setHighlightElement none := by
  obtain ⟨ce', hce', rfl⟩ := getElem?_viewRows hrow
  rw [hce] at hce'
  obtain rfl := Option.some.inj hce'
  refine ⟨rfl, rfl, rfl, ?_⟩
  intro k a ha
  cases k <;> simp [rowDispatch, renderRow] at ha <;> simp [ha]

/-- Witness for C6 at a concrete visible one-element state, row index 0. -/
theorem C6_witness :
    (renderRow 1 0 ⟨⟨7⟩, 3, none⟩).onClick =
      [ToolbarAction.setSelectedElement ⟨7⟩] ∧
    (renderRow 1 0 ⟨⟨7⟩, 3, none⟩).onMouseEnter =
      [ToolbarAction.setHighlightElement (some ⟨7⟩)] ∧
    (renderRow 1 0 ⟨⟨7⟩, 3, none⟩).onMouseLeave =
      [ToolbarAction.setHighlightElement none] ∧
    ∀ k : PointerKind, ∀ a ∈ rowDispatch (renderRow 1 0 ⟨⟨7⟩, 3, none⟩) k,
      a = ToolbarAction.setSelectedElement ⟨7⟩ ∨
      a = ToolbarAction.setHighlightElement (some ⟨7⟩) ∨
      a = ToolbarAction.setHighlightElement none :=
  C6_row_interactions ⟨[⟨⟨7⟩, 3, none⟩], 3, true, false⟩ 0
    (renderRow 1 0 ⟨⟨7⟩, 3, none⟩) ⟨⟨7⟩, 3, none⟩ (by decide) (by decide)

lemma rowContent_cases (astep : Option ActionStep) :
    (∃ t, rowContent astep = RowContent.text t) ∨
    (∃ g, rowContent astep = RowContent.codeTag g) ∨
    rowContent astep = RowContent.elementFallback := by
  by_cases h1 : jsTruthyStr (astep.bind ActionStep.text) = true
  · exact Or.inl ⟨(astep.bind ActionStep.text).getD "", by simp [rowContent, h1]⟩
  · by_cases h2 : jsTruthyStr (astep.bind ActionStep.tag_name) = true
    · exact Or.inr (Or.inl
        ⟨(astep.bind ActionStep.tag_name).getD "", by simp [rowContent, h1, h2]⟩)
    · exact Or.inr (Or.inr (by simp [rowContent, h1, h2]))

/-- C7: rendering is total and degrades missing fields to the documented
fallbacks: the render function is a total function of the state snapshot, and
every rendered row's content is either an action-step text, a code-styled tag,
or the literal `Element` fallback — never an error. -/
theorem C7_total_fallbacks (s : HeatmapState) (row : RenderedRow)
    (hmem : row ∈ viewRows (HeatmapStats s)) :
    (∃ t, row.content = RowContent.text t) ∨
    (∃ g, row.content = RowContent.codeTag g) ∨
    row.content = RowContent.elementFallback := by
  obtain ⟨ce, _, j, rfl⟩ := mem_viewRows_eq hmem
  exact rowContent_cases ce.actionStep

/-- Witness for C7 at a concrete state whose single element has no action step. -/
theorem C7_witness :
    (∃ t, (renderRow 1 0 ⟨⟨7⟩, 3, none⟩).content = RowContent.text t) ∨
    (∃ g, (renderRow 1 0 ⟨⟨7⟩, 3, none⟩).content = RowContent.codeTag g) ∨
    (renderRow 1 0 ⟨⟨7⟩, 3, none⟩).content = RowContent.elementFallback :=
  C7_total_fallbacks ⟨[⟨⟨7⟩, 3, none⟩], 3, true, false⟩
    (renderRow 1 0 ⟨⟨7⟩, 3, none⟩) (by decide)

lemma processEvents_foldl_fst (evs : List PointerEventRec) :
    ∀ acc : HeatmapState × List ToolbarAction,
      (evs.foldl (fun acc ev => (acc.1, acc.2 ++ dispatchFor acc.1 ev)) acc).1 =
        acc.1 := by
  induction evs with
  | nil => intro acc; rfl
  | cons ev rest ih => intro acc; exact ih _

lemma processEvents_foldl_snd (evs : List PointerEventRec) :
    ∀ (acc : HeatmapState × List ToolbarAction) (a : ToolbarAction),
      a ∈ (evs.foldl (fun acc ev => (acc.1, acc.2 ++ dispatchFor acc.1 ev)) acc).2 →
      a ∈ acc.2 ∨ ∃ ev, a ∈ dispatchFor acc.1 ev := by
  induction evs with
  | nil => intro acc a ha; exact Or.inl ha
  | cons ev rest ih =>
    intro acc a ha
    rcases ih _ a ha with h | ⟨ev', h⟩
    · rcases List.mem_append.mp h with h | h
      · exact Or.inl h
      · exact Or.inr ⟨ev, h⟩
    · exact Or.inr ⟨ev', h⟩

lemma mem_dispatchFor {s : HeatmapState} {ev : PointerEventRec} {a : ToolbarAction}
    (ha : a ∈ dispatchFor s ev) :
    a = ToolbarAction.setHighlightElement none ∨
    ∃ ce ∈ s.countedElements,
      a = ToolbarAction.setSelectedElement ce.element ∨
      a = ToolbarAction.setHighlightElement (some ce.element) := by
  unfold dispatchFor at ha
  split at ha
  · rename_i row hrow
    have hmem : row ∈ viewRows (HeatmapStats s) :=
      List.mem_iff_getElem?.mpr ⟨_, hrow⟩
    obtain ⟨ce, hce, j, rfl⟩ := mem_viewRows_eq hmem
    cases hk : ev.kind <;> rw [hk] at ha <;>
      simp [rowDispatch, renderRow] at ha
    · exact Or.inr ⟨ce, hce, Or.inl ha⟩
    · exact Or.inr ⟨ce, hce, Or.inr ha⟩
    · exact Or.inl ha
  · simp at ha

/-- C9: processing any sequence of pointer events leaves the externally-owned
state snapshot unchanged — the component creates, mutates and destroys no
counted element, flag or count — and its only side effects are the dispatches:
every dispatched action selects or highlights the element of some entry of
`countedElements`, or clears the highlight. -/
theorem C9_frame (s : HeatmapState) (evs : List PointerEventRec) :
    (processEvents s evs).1 = s ∧
    ∀ a ∈ (processEvents s evs).2,
      a = ToolbarAction.setHighlightElement none ∨
      ∃ ce ∈ s.countedElements,
        a = ToolbarAction.setSelectedElement ce.element ∨
        a = ToolbarAction.setHighlightElement (some ce.element) := by
  constructor
  · exact processEvents_foldl_fst evs (s, [])
  · intro a ha
    rcases processEvents_foldl_snd evs (s, []) a ha with h | ⟨ev, h⟩
    · simp at h
    · exact mem_dispatchFor h

/-- C10: the rank-label width is computed only for rendered rows; a row exists
only when `countedElements` is non-empty, so the width is always evaluated with
`N ≥ 1` and is a finite positive pixel value, and for an empty collection no
row — hence no width — is produced. -/
theorem C10_width_positive (s : HeatmapState) (row : RenderedRow)
    (hmem : row ∈ viewRows (HeatmapStats s)) :
    1 ≤ s.countedElements.length ∧ 0 < row.labelWidthPx ∧
    ∀ s' : HeatmapState, s'.countedElements = [] →
      viewRows (HeatmapStats s') = [] := by
  refine ⟨?_, ?_, ?_⟩
  · obtain ⟨ce, hce, j, rfl⟩ := mem_viewRows_eq hmem
    exact List.length_pos.mpr (List.ne_nil_of_mem hce)
  · rw [labelWidthPx_of_mem hmem]
    omega
  · intro s' hempty
    by_cases hv : (s'.heatmapEnabled && !s'.heatmapLoading) = true
    · obtain ⟨he, hl⟩ := (bool_visible_iff s').mp hv
      rw [viewRows_visible s' he hl, hempty]
      rfl
    · exact viewRows_hidden s' hv

/-- Witness for C10 at a concrete visible one-element state. -/
theorem C10_witness :
    1 ≤ ([⟨⟨7⟩, 3, none⟩] : List CountedElement).length ∧
    0 < (renderRow 1 0 ⟨⟨7⟩, 3, none⟩).labelWidthPx ∧
    ∀ s' : HeatmapState, s'.countedElements = [] →
      viewRows (HeatmapStats s') = [] :=
  C10_width_positive ⟨[⟨⟨7⟩, 3, none⟩], 3, true, false⟩
    (renderRow 1 0 ⟨⟨7⟩, 3, none⟩) (by decide)
